import Mathlib

/-!
Shallow embedding of `pretty_flexible_env_logger` (src/src/lib.rs).

The crate wraps the external `pretty_env_logger` / `env_logger` backend.
The backend itself (formatted builders, filter commit) is not part of this
repository, so it is modelled from the spec as a write-once configuration
object together with a process-wide logger slot; the entry points of
`lib.rs` are translated line by line from the source.
-/

namespace PrettyFlexibleEnvLogger

/-- The error type of `log::set_logger`: a unit struct in the `log` crate,
signalling that the global logger was already set (AlreadyInitialized). -/
inductive SetLoggerError : Type
  | mk
  deriving DecidableEq

/-- The process environment: maps a variable name to its value when the
lookup succeeds. `std::env::var` returns `Err` both for an unset variable
and for a non-unicode value; the source treats every `Err` identically, so
a failed lookup is modelled as `none`. -/
def Env : Type := String → Option String

/-- Modelled from the spec: the formatting builder of the external backend
(`pretty_env_logger`), a write-once configuration object that records which
variant (plain or timed) it was obtained from and the optional directive
string applied to it. Text rendering is out of scope per the spec. -/
structure Builder where
  timed : Bool
  directive : Option String
  deriving DecidableEq

/-- Modelled from the spec: `new_plain_builder()` of the backend,
the `pretty_env_logger::formatted_builder` used by the source. -/
def formatted_builder : Builder :=
  { timed := false, directive := none }

/-- Modelled from the spec: `new_timed_builder()` of the backend,
the `pretty_env_logger::formatted_timed_builder` used by the source. -/
def formatted_timed_builder : Builder :=
  { timed := true, directive := none }

/-- Modelled from the spec: `builder.apply_directive(string)`
(`Builder::parse_filters` of the backend): applies the directive string to
the builder. The directive grammar is opaque to this core. -/
def Builder.parse_filters (b : Builder) (s : String) : Builder :=
  { b with directive := some s }

/-- The process-wide global logger slot: `none` while no logger has been
committed, `some b` once the logger configured by builder `b` is installed. -/
structure LoggerState where
  slot : Option Builder
  deriving DecidableEq

/-- Modelled from the spec: `builder.commit_as_global()`
(`Builder::try_init` of the backend): a commit-if-unset on the global
logger slot. It succeeds exactly when the slot is empty; otherwise it
returns the AlreadyInitialized error and leaves the slot untouched. -/
def Builder.try_init (b : Builder) (st : LoggerState) :
    Except SetLoggerError Unit × LoggerState :=
  match st.slot with
  | some _ => (Except.error SetLoggerError.mk, st)
  | none => (Except.ok (), { slot := some b })

/-- From src/src/lib.rs lines 203-211: build the plain formatted builder,
apply the directive string when one is given, then commit. -/
def try_init_custom_string (filters : Option String) (st : LoggerState) :
    Except SetLoggerError Unit × LoggerState :=
  let builder := formatted_builder
  let builder :=
    match filters with
    | some s => builder.parse_filters s
    | none => builder
  builder.try_init st

/-- From src/src/lib.rs lines 226-234: build the timed formatted builder,
apply the directive string when one is given, then commit. -/
def try_init_timed_custom_string (filters : Option String) (st : LoggerState) :
    Except SetLoggerError Unit × LoggerState :=
  let builder := formatted_timed_builder
  let builder :=
    match filters with
    | some s => builder.parse_filters s
    | none => builder
  builder.try_init st

/-- From src/src/lib.rs lines 160-166: look the argument up in the
environment; on success the value is the directive, on failure the argument
itself is the directive; delegate to `try_init_custom_string`. -/
def try_init_with (env : Env) (environment_or_inline_value : String)
    (st : LoggerState) : Except SetLoggerError Unit × LoggerState :=
  let value :=
    match env environment_or_inline_value with
    | some s => some s
    | none => some environment_or_inline_value
  try_init_custom_string value st

/-- From src/src/lib.rs lines 182-188: same resolution as `try_init_with`,
delegating to `try_init_timed_custom_string`. -/
def try_init_timed_with (env : Env) (environment_or_inline_value : String)
    (st : LoggerState) : Except SetLoggerError Unit × LoggerState :=
  let value :=
    match env environment_or_inline_value with
    | some s => some s
    | none => some environment_or_inline_value
  try_init_timed_custom_string value st

/-- Outcome of a fatal (non-try) entry point: either the call returned
normally or it panicked via `Result::unwrap` on an error. -/
inductive FatalOutcome : Type
  | ok
  | panicked
  deriving DecidableEq

/-- The effect of `.unwrap()` on a `Result<(), SetLoggerError>` together
with the logger state at that point: `Ok` returns normally, `Err` panics. -/
def unwrapInit (r : Except SetLoggerError Unit × LoggerState) :
    FatalOutcome × LoggerState :=
  match r with
  | (Except.ok _, st) => (FatalOutcome.ok, st)
  | (Except.error _, st) => (FatalOutcome.panicked, st)

/-- From src/src/lib.rs lines 124-126: `try_init_with(...).unwrap()`. -/
def init_with (env : Env) (environment_or_inline_value : String)
    (st : LoggerState) : FatalOutcome × LoggerState :=
  unwrapInit (try_init_with env environment_or_inline_value st)

/-- From src/src/lib.rs lines 142-144: the body is
`try_init_with(environment_or_inline_value).unwrap()` - it delegates to the
untimed `try_init_with`, not to `try_init_timed_with`. -/
def init_timed_with (env : Env) (environment_or_inline_value : String)
    (st : LoggerState) : FatalOutcome × LoggerState :=
  unwrapInit (try_init_with env environment_or_inline_value st)

/-- From src/src/lib.rs lines 65-67: `init_with("RUST_LOG")`. -/
def init (env : Env) (st : LoggerState) : FatalOutcome × LoggerState :=
  init_with env "RUST_LOG" st

/-- From src/src/lib.rs lines 80-82: `init_timed_with("RUST_LOG")`. -/
def init_timed (env : Env) (st : LoggerState) : FatalOutcome × LoggerState :=
  init_timed_with env "RUST_LOG" st

/-- From src/src/lib.rs lines 93-95: `try_init_with("RUST_LOG")`. -/
def try_init (env : Env) (st : LoggerState) :
    Except SetLoggerError Unit × LoggerState :=
  try_init_with env "RUST_LOG" st

/-- From src/src/lib.rs lines 106-108: `try_init_timed_with("RUST_LOG")`. -/
def try_init_timed (env : Env) (st : LoggerState) :
    Except SetLoggerError Unit × LoggerState :=
  try_init_timed_with env "RUST_LOG" st

/-- Helper: committing through the plain custom-string entry point when the
slot is already occupied returns the AlreadyInitialized error and leaves the
state unchanged, whatever the filters argument. -/
lemma custom_string_already_set (f : Option String) (st : LoggerState)
    (h : st.slot.isSome = true) :
    try_init_custom_string f st = (Except.error SetLoggerError.mk, st) := by
  cases st with
  | mk slot =>
    cases slot with
    | none => simp [LoggerState.slot] at h
    | some b => cases f <;> rfl

/-- Helper: the timed analogue of `custom_string_already_set`. -/
lemma timed_custom_string_already_set (f : Option String) (st : LoggerState)
    (h : st.slot.isSome = true) :
    try_init_timed_custom_string f st = (Except.error SetLoggerError.mk, st) := by
  cases st with
  | mk slot =>
    cases slot with
    | none => simp [LoggerState.slot] at h
    | some b => cases f <;> rfl

/-- C1: once the global logger slot is occupied, every entry point fails:
each try-variant returns the AlreadyInitialized error and each fatal
variant panics, for any environment and any filter source; there is never a
second success. -/
theorem C1_no_second_success (env : Env) (st : LoggerState)
    (h : st.slot.isSome = true) (s : String) (f : Option String) :
    (try_init_with env s st).1 = Except.error SetLoggerError.mk ∧
    (try_init_timed_with env s st).1 = Except.error SetLoggerError.mk ∧
    (try_init_custom_string f st).1 = Except.error SetLoggerError.mk ∧
    (try_init_timed_custom_string f st).1 = Except.error SetLoggerError.mk ∧
    (try_init env st).1 = Except.error SetLoggerError.mk ∧
    (try_init_timed env st).1 = Except.error SetLoggerError.mk ∧
    (init_with env s st).1 = FatalOutcome.panicked ∧
    (init_timed_with env s st).1 = FatalOutcome.panicked ∧
    (init env st).1 = FatalOutcome.panicked ∧
    (init_timed env st).1 = FatalOutcome.panicked := by
  have h1 : ∀ g, try_init_custom_string g st = (Except.error SetLoggerError.mk, st) :=
    fun g => custom_string_already_set g st h
  have h2 : ∀ g, try_init_timed_custom_string g st = (Except.error SetLoggerError.mk, st) :=
    fun g => timed_custom_string_already_set g st h
  refine ⟨?_, ?_, ?_, ?_, ?_, ?_, ?_, ?_, ?_, ?_⟩ <;>
    simp [try_init, try_init_timed, init, init_timed, init_with, init_timed_with,
      try_init_with, try_init_timed_with, unwrapInit, h1, h2]

/-- Witness for C1 at a concrete occupied state. -/
theorem C1_no_second_success_witness :
    (({ slot := some formatted_builder } : LoggerState).slot.isSome = true) ∧
    (try_init_with (fun _ => none) "X" { slot := some formatted_builder }).1 =
      Except.error SetLoggerError.mk :=
  ⟨rfl,
    (C1_no_second_success (fun _ => none) { slot := some formatted_builder }
      rfl "X" none).1⟩

/-- C2 failing evaluation: with no environment variable set and an empty
slot, `init_timed` and `init_timed_with` install a logger built from the
plain (untimed) builder, because the source body of `init_timed_with`
delegates to `try_init_with`; wrapping `try_init_timed_with` instead would
install the timed builder. -/
theorem C2_init_timed_installs_untimed :
    (init_timed (fun _ => none) { slot := none }).2.slot =
      some { timed := false, directive := some "RUST_LOG" } ∧
    (init_timed_with (fun _ => none) "debug" { slot := none }).2.slot =
      some { timed := false, directive := some "debug" } ∧
    (unwrapInit (try_init_timed_with (fun _ => none) "debug" { slot := none })).2.slot =
      some { timed := true, directive := some "debug" } :=
  ⟨rfl, rfl, rfl⟩

/-- C3: when the environment lookup of the source string fails, both
with-variants behave as the custom-string entry points applied to the
original source string itself (literal fallback). -/
theorem C3_literal_fallback (env : Env) (s : String) (st : LoggerState)
    (h : env s = none) :
    try_init_with env s st = try_init_custom_string (some s) st ∧
    try_init_timed_with env s st = try_init_timed_custom_string (some s) st := by
  constructor <;> simp [try_init_with, try_init_timed_with, h]

/-- Witness for C3 at a concrete empty environment. -/
theorem C3_literal_fallback_witness :
    ((fun _ => none : Env) "MY_VAR" = none) ∧
    try_init_with (fun _ => none) "MY_VAR" { slot := none } =
      try_init_custom_string (some "MY_VAR") { slot := none } :=
  ⟨rfl, (C3_literal_fallback (fun _ => none) "MY_VAR" { slot := none } rfl).1⟩

/-- C4: when the environment variable named by the source string is set to
value v (the empty string included), both with-variants behave as the
custom-string entry points applied to v, not to the source string. -/
theorem C4_env_value_wins (env : Env) (s v : String) (st : LoggerState)
    (h : env s = some v) :
    try_init_with env s st = try_init_custom_string (some v) st ∧
    try_init_timed_with env s st = try_init_timed_custom_string (some v) st := by
  constructor <;> simp [try_init_with, try_init_timed_with, h]

/-- Witness for C4 with the variable set to the empty string. -/
theorem C4_env_value_wins_witness :
    ((fun _ => some "" : Env) "MY_VAR" = some "") ∧
    try_init_with (fun _ => some "") "MY_VAR" { slot := none } =
      try_init_custom_string (some "") { slot := none } :=
  ⟨rfl, (C4_env_value_wins (fun _ => some "") "MY_VAR" "" { slot := none } rfl).1⟩

/-- C5 failing evaluation: `init_timed_with` is not the panic-wrapping of
its corresponding try-variant `try_init_timed_with`: on an empty slot with
no environment variables set the two install different loggers. -/
theorem C5_init_timed_with_wrong_delegate :
    init_timed_with (fun _ => none) "debug" { slot := none } ≠
      unwrapInit (try_init_timed_with (fun _ => none) "debug" { slot := none }) := by
  decide

/-- C6: when the slot is already occupied, every entry point leaves the
state exactly as it was, for any environment and filter source. -/
theorem C6_failed_init_preserves_state (env : Env) (st : LoggerState)
    (h : st.slot.isSome = true) (s : String) (f : Option String) :
    (try_init_with env s st).2 = st ∧
    (try_init_timed_with env s st).2 = st ∧
    (try_init_custom_string f st).2 = st ∧
    (try_init_timed_custom_string f st).2 = st ∧
    (try_init env st).2 = st ∧
    (try_init_timed env st).2 = st ∧
    (init_with env s st).2 = st ∧
    (init_timed_with env s st).2 = st ∧
    (init env st).2 = st ∧
    (init_timed env st).2 = st := by
  have h1 : ∀ g, try_init_custom_string g st = (Except.error SetLoggerError.mk, st) :=
    fun g => custom_string_already_set g st h
  have h2 : ∀ g, try_init_timed_custom_string g st = (Except.error SetLoggerError.mk, st) :=
    fun g => timed_custom_string_already_set g st h
  refine ⟨?_, ?_, ?_, ?_, ?_, ?_, ?_, ?_, ?_, ?_⟩ <;>
    simp [try_init, try_init_timed, init, init_timed, init_with, init_timed_with,
      try_init_with, try_init_timed_with, unwrapInit, h1, h2]

/-- Witness for C6 at a concrete occupied state. -/
theorem C6_failed_init_preserves_state_witness :
    (({ slot := some formatted_timed_builder } : LoggerState).slot.isSome = true) ∧
    (try_init_with (fun _ => none) "X" { slot := some formatted_timed_builder }).2 =
      { slot := some formatted_timed_builder } :=
  ⟨rfl,
    (C6_failed_init_preserves_state (fun _ => none)
      { slot := some formatted_timed_builder } rfl "X" none).1⟩

/-- C7: each parameterless entry point equals its with-variant applied to
the literal string RUST_LOG, for every environment and slot state. -/
theorem C7_default_source_is_RUST_LOG (env : Env) (st : LoggerState) :
    init env st = init_with env "RUST_LOG" st ∧
    try_init env st = try_init_with env "RUST_LOG" st ∧
    init_timed env st = init_timed_with env "RUST_LOG" st ∧
    try_init_timed env st = try_init_timed_with env "RUST_LOG" st :=
  ⟨rfl, rfl, rfl, rfl⟩

/-- C8: with no directive, the custom-string entry points commit the bare
backend builders (whose directive field is empty, i.e. backend-default
filtering), succeed on an empty slot, and fail on a second attempt. -/
theorem C8_none_keeps_default_filtering (st : LoggerState) (h : st.slot = none) :
    formatted_builder.directive = none ∧
    formatted_timed_builder.directive = none ∧
    try_init_custom_string none st = (Except.ok (), { slot := some formatted_builder }) ∧
    try_init_timed_custom_string none st =
      (Except.ok (), { slot := some formatted_timed_builder }) ∧
    (try_init_custom_string none (try_init_custom_string none st).2).1 =
      Except.error SetLoggerError.mk ∧
    (try_init_timed_custom_string none (try_init_timed_custom_string none st).2).1 =
      Except.error SetLoggerError.mk := by
  cases st with
  | mk slot =>
    cases slot with
    | none => exact ⟨rfl, rfl, rfl, rfl, rfl, rfl⟩
    | some b => simp [LoggerState.slot] at h

/-- Witness for C8 at the empty state. -/
theorem C8_none_keeps_default_filtering_witness :
    (({ slot := none } : LoggerState).slot = none) ∧
    try_init_custom_string none { slot := none } =
      (Except.ok (), { slot := some formatted_builder }) :=
  ⟨rfl, (C8_none_keeps_default_filtering { slot := none } rfl).2.2.1⟩

/-- C9: filter resolution always yields a directive (never a bypass to
no-directive), and the only failure any entry point exhibits is the
AlreadyInitialized condition, arising exactly when the slot is occupied;
an unaccessible environment variable never surfaces as an error. -/
theorem C9_only_already_init_error (env : Env) (s : String) (st : LoggerState) :
    (∃ v, try_init_with env s st = try_init_custom_string (some v) st ∧
      try_init_timed_with env s st = try_init_timed_custom_string (some v) st) ∧
    ((try_init_with env s st).1 =
      if st.slot.isSome then Except.error SetLoggerError.mk else Except.ok ()) ∧
    ((try_init_timed_with env s st).1 =
      if st.slot.isSome then Except.error SetLoggerError.mk else Except.ok ()) ∧
    ((try_init env st).1 =
      if st.slot.isSome then Except.error SetLoggerError.mk else Except.ok ()) ∧
    ((try_init_timed env st).1 =
      if st.slot.isSome then Except.error SetLoggerError.mk else Except.ok ()) ∧
    ((init_with env s st).1 =
      if st.slot.isSome then FatalOutcome.panicked else FatalOutcome.ok) ∧
    ((init_timed_with env s st).1 =
      if st.slot.isSome then FatalOutcome.panicked else FatalOutcome.ok) ∧
    ((init env st).1 =
      if st.slot.isSome then FatalOutcome.panicked else FatalOutcome.ok) ∧
    ((init_timed env st).1 =
      if st.slot.isSome then FatalOutcome.panicked else FatalOutcome.ok) := by
  cases st with
  | mk slot =>
    constructor
    · cases henv : env s with
      | none =>
        exact ⟨s, by constructor <;> simp [try_init_with, try_init_timed_with, henv]⟩
      | some v =>
        exact ⟨v, by constructor <;> simp [try_init_with, try_init_timed_with, henv]⟩
    · cases slot <;> cases henv : env s <;> cases henv2 : env "RUST_LOG" <;>
        simp [try_init, try_init_timed, init, init_timed, init_with, init_timed_with,
          try_init_with, try_init_timed_with, try_init_custom_string,
          try_init_timed_custom_string, Builder.try_init, unwrapInit,
          LoggerState.slot, henv, henv2]

/-- C10: the two with-variants share a single resolved value r, with
`try_init_with` equal to `try_init_custom_string r` and
`try_init_timed_with` equal to `try_init_timed_custom_string r`. -/
theorem C10_shared_resolution (env : Env) (s : String) (st : LoggerState) :
    ∃ r, try_init_with env s st = try_init_custom_string r st ∧
      try_init_timed_with env s st = try_init_timed_custom_string r st := by
  cases henv : env s with
  | none =>
    exact ⟨some s, by constructor <;> simp [try_init_with, try_init_timed_with, henv]⟩
  | some v =>
    exact ⟨some v, by constructor <;> simp [try_init_with, try_init_timed_with, henv]⟩

end PrettyFlexibleEnvLogger
